import Mathlib

/-!
Verification of the tabular ingestion and type-inference pipeline.

Shallow embedding of the client-side file-parsing pipeline of this
repository: `processFile` (src/src/components/FileUploadZone.tsx) and
`parseFile` / `analyzeDataTypes` (src/unnamed/part_000, the
EnterpriseUploadZone component).

Modelling conventions:
* JavaScript runtime values are the inductive `JVal`; numeric literals are
  modelled as integers (no claim depends on fractional values), and
  `undefined` does not occur as a stored value in any code path modelled
  here (Papa Parse produces strings/typed scalars, `sheet_to_json` with
  `defval` option produces the empty string for blanks, JSON has no
  `undefined`).
* Library calls are modelled by their documented behaviour:
  Papa Parse is modelled for the exact configurations used by the code
  (`header:true, skipEmptyLines:true`, optionally `dynamicTyping:true`),
  with `\n` line splitting and `,` field splitting (quoting and delimiter
  guessing are not exercised by any claim); `JSON.parse` and
  `XLSX.read`+`sheet_to_json` are modelled by their outcome, carried in the
  `FileInput` record as an `Except` (error = the message the library call
  throws with).
* `Date.parse` is modelled by its ECMA-262-specified ISO-8601 date-only
  format `YYYY-MM-DD` (implementation-defined extensions are not needed by
  any claim; both the source embedding and the spec-worded predicate use
  the same model, so claims comparing the two do not depend on it).
-/

/-- A JavaScript runtime value as it occurs in the parsed tables:
`null`, booleans, numbers (modelled as integers), strings, arrays and
plain objects (association lists in key insertion order). -/
inductive JVal where
  | jnull : JVal
  | jbool (b : Bool) : JVal
  | jnum (n : Int) : JVal
  | jstr (s : String) : JVal
  | jarr (xs : List JVal) : JVal
  | jobj (fields : List (String × JVal)) : JVal

/-- JavaScript `typeof v` for the modelled values (`typeof null` is
`"object"`, as in the language). -/
def jsTypeof : JVal → String
  | .jnull => "object"
  | .jbool _ => "boolean"
  | .jnum _ => "number"
  | .jstr _ => "string"
  | .jarr _ => "object"
  | .jobj _ => "object"

/-- JavaScript truthiness of a modelled value. -/
def jsTruthy : JVal → Bool
  | .jnull => false
  | .jbool b => b
  | .jnum n => n != 0
  | .jstr s => s != ""
  | .jarr _ => true
  | .jobj _ => true

/-- Model of JavaScript `Date.parse(s)` returning a non-NaN value:
the ECMA-262 ISO-8601 date-only form `YYYY-MM-DD` with month in 1..12 and
day in 1..31. -/
def dateParses (s : String) : Bool :=
  match s.toList with
  | [y1, y2, y3, y4, '-', m1, m2, '-', d1, d2] =>
      y1.isDigit && y2.isDigit && y3.isDigit && y4.isDigit &&
      m1.isDigit && m2.isDigit && d1.isDigit && d2.isDigit &&
      (let m := (m1.toNat - '0'.toNat) * 10 + (m2.toNat - '0'.toNat)
       let d := (d1.toNat - '0'.toNat) * 10 + (d2.toNat - '0'.toNat)
       decide (1 ≤ m) && decide (m ≤ 12) && decide (1 ≤ d) && decide (d ≤ 31))
  | _ => false

/-- JavaScript `Object.entries(v)`, which the source applies to the first
row: `none` models the `TypeError` thrown on `null`; strings and arrays
enumerate index/element pairs; other primitives give no entries. -/
def jsEntries : JVal → Option (List (String × JVal))
  | .jnull => none
  | .jobj fs => some fs
  | .jarr xs => some (xs.enum.map fun p => (toString p.1, p.2))
  | .jstr s => some (s.toList.enum.map fun p => (toString p.1, .jstr (String.mk [p.2])))
  | .jnum _ => some []
  | .jbool _ => some []

/-- The per-value branch of `analyzeDataTypes` (src/unnamed/part_000,
lines 763-780): `typeof value` dispatch, then for strings the
`includes('@')` / `Date.parse` tests. -/
def valueTypeTag (v : JVal) : String :=
  match v with
  | .jnum _ => "number"
  | .jbool _ => "boolean"
  | .jstr s =>
      if s.toList.contains '@' then "email"
      else if dateParses s then "date"
      else "string"
  | _ => "string"

/-- Function `analyzeDataTypes(data)` from src/unnamed/part_000 (lines 758-783):
returns `{}` on an empty table, otherwise tags every entry of
`Object.entries(data[0])`; `none` models the `TypeError` propagated when
the first row is `null`. -/
def analyzeDataTypes (data : List JVal) : Option (List (String × String)) :=
  match data with
  | [] => some []
  | sample :: _ =>
      (jsEntries sample).map (List.map fun p => (p.1, valueTypeTag p.2))

/-- Type tag assignment exactly as the specification words it: numeric →
`number`; else boolean → `boolean`; else for a string, `'@'`-containing →
`email`, else date-parsing → `date`, else `string`; any other
representation (object- or array-valued, or null) → `string`. -/
def specTypeTag (v : JVal) : String :=
  if jsTypeof v = "number" then "number"
  else if jsTypeof v = "boolean" then "boolean"
  else if jsTypeof v = "string" then
    match v with
    | .jstr s =>
        if s.toList.contains '@' then "email"
        else if dateParses s then "date"
        else "string"
    | _ => "string"
  else "string"

/-- The first row of the worked example of the specification:
`{age: 30, active: true, email: "a@b.com", joined: "2024-01-01", note: "hello"}`. -/
def exampleRow : JVal :=
  .jobj [("age", .jnum 30), ("active", .jbool true),
         ("email", .jstr "a@b.com"), ("joined", .jstr "2024-01-01"),
         ("note", .jstr "hello")]

/-- C1: for every parsed table whose first row is an object,
`analyzeDataTypes` tags each field of that first row by the fixed
precedence the specification states (`specTypeTag`); on the specification's
worked example it yields
`{age: number, active: boolean, email: email, joined: date, note: string}`. -/
theorem analyzeDataTypes_follows_spec_precedence (fields : List (String × JVal))
    (rest : List JVal) :
    analyzeDataTypes (.jobj fields :: rest)
      = some (fields.map fun p => (p.1, specTypeTag p.2)) ∧
    analyzeDataTypes [exampleRow]
      = some [("age", "number"), ("active", "boolean"), ("email", "email"),
              ("joined", "date"), ("note", "string")] := by
  constructor
  · simp only [analyzeDataTypes, jsEntries, Option.map_some']
    congr 1
    apply List.map_congr_left
    intro p _
    have : valueTypeTag p.2 = specTypeTag p.2 := by
      cases h : p.2 <;> rfl
    rw [this]
  · rfl

/-- C2: `analyzeDataTypes` depends only on the first row: on any non-empty
row list it equals its value on the one-element list holding just the first
row. -/
theorem analyzeDataTypes_first_row_only (r : JVal) (rest : List JVal) :
    analyzeDataTypes (r :: rest) = analyzeDataTypes [r] := by
  rfl

/-! Papa Parse model.

The code calls Papa Parse with `header: true, skipEmptyLines: true`
(`parseFile`) and additionally `dynamicTyping: true` (`processFile`).
Lines are split on `\n` and fields on `,`; `skipEmptyLines: true` drops
exactly the rows consisting of one empty field (Papa's `testEmptyLine`);
the first remaining row becomes `meta.fields`; later rows become objects,
with surplus fields collected under `__parsed_extra` and any field-count
mismatch reported as a `FieldMismatch` error (`Too many fields: expected N
fields but parsed M` / `Too few fields: ...`). -/

/-- Split a character list at every occurrence of `sep` (the semantics of
JavaScript `String.split` with a one-character separator). -/
def splitListOn (sep : Char) : List Char → List (List Char)
  | [] => [[]]
  | c :: t =>
      if c = sep then [] :: splitListOn sep t
      else
        match splitListOn sep t with
        | [] => [[c]]
        | g :: gs => (c :: g) :: gs

/-- Model of JavaScript `String.split` with a one-character separator. -/
def splitStrOn (sep : Char) (s : String) : List String :=
  (splitListOn sep s.toList).map fun cs => String.mk cs

/-- Model of JavaScript `String.toLowerCase()`. -/
def lowerString (s : String) : String :=
  String.mk (s.toList.map Char.toLower)

/-- Whitespace for `String.trim()`. -/
def isWhiteChar (c : Char) : Bool :=
  c = ' ' ∨ c = '\t' ∨ c = '\n' ∨ c = '\r'

/-- JavaScript `String.trim()`: strip leading and trailing whitespace. -/
def trimStr (s : String) : String :=
  String.mk (((s.toList.dropWhile isWhiteChar).reverse.dropWhile isWhiteChar).reverse)

/-- Line/field split of the CSV text with empty lines dropped
(`skipEmptyLines: true`). -/
def papaRows (text : String) : List (List String) :=
  ((splitStrOn '\n' text).map fun line => splitStrOn ',' line).filter fun r => r ≠ [""]

/-- Accumulator-style decimal digits to `Nat`. -/
def digitsToNat (cs : List Char) (acc : Nat) : Nat :=
  match cs with
  | [] => acc
  | c :: t => digitsToNat t (acc * 10 + (c.toNat - '0'.toNat))

/-- Integer literal recognition, modelling Papa's numeric (`FLOAT`) test
restricted to integer literals (no claim involves fractional values). -/
def intOfString : String → Option Int
  | s =>
    match s.toList with
    | [] => none
    | '-' :: t =>
        if t ≠ [] && t.all Char.isDigit then some (-(digitsToNat t 0 : Int)) else none
    | cs => if cs.all Char.isDigit then some ((digitsToNat cs 0 : Int)) else none

/-- Papa's `parseDynamic` for `dynamicTyping: true`: `true`/`TRUE` and
`false`/`FALSE` become booleans, numeric literals numbers, the empty
string `null`, everything else stays a string (ISO date-time conversion to
`Date` objects is not modelled; no claim involves it). -/
def dynValue (s : String) : JVal :=
  if s = "true" ∨ s = "TRUE" then .jbool true
  else if s = "false" ∨ s = "FALSE" then .jbool false
  else
    match intOfString s with
    | some n => .jnum n
    | none => if s = "" then .jnull else .jstr s

/-- One Papa data row as a row object: header fields are paired
positionally with the row's fields (missing trailing fields are absent, as
in Papa's too-few-fields case) and surplus fields go to `__parsed_extra`. -/
def mkCsvObj (conv : String → JVal) (fields : List String) (r : List String) : JVal :=
  let main := (fields.zip r).map fun p => (p.1, conv p.2)
  let extra := r.drop fields.length
  .jobj (main ++ if extra.isEmpty then [] else [("__parsed_extra", .jarr (extra.map conv))])

/-- Papa's `FieldMismatch` error message for a data row, if any. -/
def fieldMismatch (nf : Nat) (r : List String) : Option String :=
  if r.length > nf then
    some ("Too many fields: expected " ++ toString nf ++ " fields but parsed "
      ++ toString r.length)
  else if r.length < nf then
    some ("Too few fields: expected " ++ toString nf ++ " fields but parsed "
      ++ toString r.length)
  else none

/-- The `data` / `errors` / `meta.fields` parts of a Papa Parse result. -/
structure PapaResult where
  data : List JVal
  errors : List String
  fields : List String

/-- Model of `Papa.parse(text, {header: true, skipEmptyLines: true, dynamicTyping: dyn})`. -/
def papaParse (dyn : Bool) (text : String) : PapaResult :=
  let conv := fun s => if dyn then dynValue s else .jstr s
  match papaRows text with
  | [] => ⟨[], [], []⟩
  | hdr :: rest =>
      ⟨rest.map (mkCsvObj conv hdr), rest.filterMap (fieldMismatch hdr.length), hdr⟩

/-! File input model. -/

/-- An uploaded file: its name and its contents under each reader the code
uses. `jsonOfText` is the outcome of `JSON.parse` on the contents
(`.error` = the syntax-error message it throws with); `firstSheet` is the
outcome of `XLSX.read` + first-sheet extraction, as the raw cell rows that
`sheet_to_json` enumerates (`.error` = the message of a failed workbook
read/decode). Only the view selected by the file's extension is ever
consulted. -/
structure FileInput where
  name : String
  text : String
  jsonOfText : Except String JVal
  firstSheet : Except String (List (List JVal))

/-- Lowercase extension: `name.toLowerCase().split('.').pop()` in
`processFile`, `name.split('.').pop()?.toLowerCase()` in `parseFile`
(identical results, since lowercasing preserves `.`). -/
def fileExtension (name : String) : String :=
  (splitStrOn '.' (lowerString name)).getLastD ""

/-- JavaScript `Object.keys(v)` on a non-null value: field names for objects,
stringified indices for arrays and strings, nothing for other
primitives. -/
def jsKeysTotal : JVal → List String
  | .jobj fs => fs.map (·.1)
  | .jarr xs => (List.range xs.length).map toString
  | .jstr s => (List.range s.length).map toString
  | _ => []

/-- JavaScript `Object.keys(v)` with the `TypeError` thrown on `null`. -/
def jsKeysE : JVal → Except String (List String)
  | .jnull => .error "Cannot convert undefined or null to object"
  | v => .ok (jsKeysTotal v)

/-- JavaScript `String(v)` for the scalar cell values a decoded sheet contains
(array/object cells do not occur in sheet data; their stringification is
irrelevant to every claim). -/
def jsStringOf : JVal → String
  | .jstr s => s
  | .jnum n => toString n
  | .jbool true => "true"
  | .jbool false => "false"
  | .jnull => "null"
  | .jarr _ => ""
  | .jobj _ => "[object Object]"

/-- Is the value the empty string? (JavaScript `v === ''`.) -/
def isEmptyStrVal : JVal → Bool
  | .jstr "" => true
  | _ => false

/-! Embedding of processFile (src/src/components/FileUploadZone.tsx, lines 39-134). -/

/-- The expression `row[index] || ''` when building an XLSX row object: a
missing or falsy cell (including the number 0 and `false`) is replaced by
the empty string. -/
def cellOrEmpty (c : Option JVal) : JVal :=
  match c with
  | some v => if jsTruthy v then v else .jstr ""
  | none => .jstr ""

/-- Build one XLSX data-row object: `headers.forEach((header, index) =>
obj[header] = row[index] || '')`. -/
def buildXlsxRow (headers : List String) (r : List JVal) : List (String × JVal) :=
  headers.enum.map fun p => (p.2, cellOrEmpty (r.get? p.1))

/-- The XLSX data rows of `processFile`: each raw row turned into an
object, then `.filter(row => Object.values(row).some(v => v !== ''))`. -/
def xlsxDataRows (headers : List String) (rest : List (List JVal)) :
    List (List (String × JVal)) :=
  (rest.map (buildXlsxRow headers)).filter fun o => o.any fun p => !(isEmptyStrVal p.2)

/-- The format-dispatch part of `processFile` (lines 41-109): everything
up to but excluding the final no-data / no-headers checks. -/
def processFileBranch (f : FileInput) : Except String (List JVal × List String) :=
  let extension := fileExtension f.name
  if extension = "csv" then
    let result := papaParse true f.text
    match result.errors with
    | e :: _ => .error ("CSV parsing error: " ++ e)
    | [] => .ok (result.data, result.fields)
  else if extension = "xlsx" ∨ extension = "xls" then
    match f.firstSheet with
    | .error e => .error e
    | .ok jsonData =>
        match jsonData with
        | [] => .error "Excel file is empty"
        | hdrRow :: rest =>
            let headers := (hdrRow.map fun c => trimStr (jsStringOf c)).filter fun h => h ≠ ""
            .ok ((xlsxDataRows headers rest).map .jobj, headers)
  else if extension = "json" then
    match f.jsonOfText with
    | .error e => .error e
    | .ok jsonData =>
        match jsonData with
        | .jarr xs =>
            match xs with
            | [] => .ok ([], [])
            | x :: _ =>
                if jsTypeof x = "object" then
                  match jsKeysE x with
                  | .error e => .error e
                  | .ok ks => .ok (xs, ks)
                else .ok (xs, [])
        | v =>
            if jsTypeof v = "object" then
              match jsKeysE v with
              | .error e => .error e
              | .ok ks => .ok ([v], ks)
            else .error "JSON must be an array or object"
  else .error ("Unsupported file type: " ++ extension)

/-- Function `processFile` up to its `return`: branch dispatch followed by the
`data.length === 0` and `headers.length === 0` checks (lines 111-117). -/
def processFileCore (f : FileInput) : Except String (List JVal × List String) :=
  match processFileBranch f with
  | .error e => .error e
  | .ok (data, headers) =>
      if data.isEmpty then .error "File contains no data"
      else if headers.isEmpty then .error "Could not detect column headers"
      else .ok (data, headers)

/-- The `status` field of an `UploadedFile` (`'success' | 'error'`). -/
inductive UploadStatus where
  | success : UploadStatus
  | error : UploadStatus
deriving DecidableEq

/-- The `UploadedFile` record `processFile` resolves with (the `file`
handle itself is omitted: it is the unmodified input). -/
structure UploadedFile where
  data : List JVal
  headers : List String
  status : UploadStatus
  errorMsg : Option String

/-- Function `processFile(file)`: the core computation wrapped in the
`try`/`catch` of lines 40-133 — any failure yields `status: 'error'` with
empty `data` and `headers` and the error's message. -/
def processFile (f : FileInput) : UploadedFile :=
  match processFileCore f with
  | .ok dh => ⟨dh.1, dh.2, .success, none⟩
  | .error e => ⟨[], [], .error, some e⟩

/-! Embedding of parseFile (src/unnamed/part_000, lines 668-756). -/

/-- JavaScript `Object.values(v)` for the values the blank-row filter inspects
(`null` cannot reach it: the filtered rows are always row objects). -/
def jsValuesTotal : JVal → List JVal
  | .jobj fs => fs.map (·.2)
  | .jarr xs => xs
  | .jstr s => s.toList.map fun c => .jstr (String.mk [c])
  | _ => []

/-- The test `val !== '' && val !== null && val !== undefined` (no
modelled value is `undefined`). -/
def nonEmptyVal (v : JVal) : Bool :=
  match v with
  | .jstr "" => false
  | .jnull => false
  | _ => true

/-- The blank-row predicate of `parseFile`:
`Object.values(row).some(val => val !== '' && val !== null && val !== undefined)`. -/
def rowHasValue (v : JVal) : Bool :=
  (jsValuesTotal v).any nonEmptyVal

/-- The expression `Object.keys(cleanData[0] || {})`: an absent or falsy
first row gives
no columns. -/
def colsOf (data : List JVal) : List String :=
  match data with
  | [] => []
  | v :: _ => if jsTruthy v then jsKeysTotal v else []

/-- Model of `XLSX.utils.sheet_to_json(worksheet)` in its default (object)
mode:
the first cell row supplies the keys (stringified), later rows pair cells
with them positionally; a cell with no stored value is modelled as absent
(a shorter row), matching the default omission of empty cells. -/
def sheetToJsonDefault (cells : List (List JVal)) : List JVal :=
  match cells with
  | [] => []
  | hdr :: rest => rest.map fun r => .jobj ((hdr.zip r).map fun p => (jsStringOf p.1, p.2))

/-- The object `parseFile` resolves with, flattened: `data` plus the
`metadata` fields the claims mention (`columns`, `rows`, `detectedTypes`,
`filename`, and the `uploadedAt` timestamp taken from `new Date()` at call
time, modelled as the explicit `now` argument). -/
structure ParsedUpload where
  data : List JVal
  columns : List String
  rows : Nat
  detectedTypes : Option (List (String × String))
  filename : String
  uploadedAt : Nat

/-- Function `parseFile(file)` of the EnterpriseUploadZone component:
`now` is the
ambient clock read by `new Date().toISOString()` when the metadata object
is built. In the JSON branch the whole body runs inside a `try` whose
`catch` rejects with `Invalid JSON format`, so both a `JSON.parse` failure
and the `TypeError` of `analyzeDataTypes` on a `null` first row surface as
that message. -/
def parseFile (now : Nat) (f : FileInput) : Except String ParsedUpload :=
  let extension := fileExtension f.name
  if extension = "csv" then
    let results := papaParse false f.text
    match results.errors with
    | e :: _ => .error ("CSV parsing error: " ++ e)
    | [] =>
        let cleanData := results.data.filter rowHasValue
        .ok ⟨cleanData, colsOf cleanData, cleanData.length,
             analyzeDataTypes cleanData, f.name, now⟩
  else if extension = "xlsx" ∨ extension = "xls" then
    match f.firstSheet with
    | .error e => .error e
    | .ok cells =>
        let cleanData := (sheetToJsonDefault cells).filter rowHasValue
        .ok ⟨cleanData, colsOf cleanData, cleanData.length,
             analyzeDataTypes cleanData, f.name, now⟩
  else if extension = "json" then
    match f.jsonOfText with
    | .error _ => .error "Invalid JSON format"
    | .ok v =>
        let dataArray := match v with | .jarr xs => xs | w => [w]
        match analyzeDataTypes dataArray with
        | none => .error "Invalid JSON format"
        | some types =>
            .ok ⟨dataArray, colsOf dataArray, dataArray.length, some types, f.name, now⟩
  else .error "Unsupported file format. Please use CSV, Excel, or JSON files."

/-- The rows-and-headers part of a `parseFile` result. -/
def parseOutput (r : ParsedUpload) : List JVal × List String :=
  (r.data, r.columns)

/-! Theorems for the remaining claims. -/

/-- Does `hay` start with `sub`? -/
def startsWithChars (sub hay : List Char) : Bool :=
  match sub, hay with
  | [], _ => true
  | _ :: _, [] => false
  | a :: as, b :: bs => a = b && startsWithChars as bs

/-- Does `hay` contain `sub` as a contiguous substring? -/
def containsChars (hay sub : List Char) : Bool :=
  match hay with
  | [] => startsWithChars sub []
  | c :: t => startsWithChars sub (c :: t) || containsChars t sub

/-- The spec's C3 example file: CSV text `"a,b\n1,2\n,,\n3,4"`. -/
def csvExampleFile : FileInput :=
  ⟨"data.csv", "a,b\n1,2\n,,\n3,4", .error "", .error ""⟩

/-- A variant of the C3 example whose blank row has the same field count
as the header (`","` instead of `",,"`). -/
def csvBlankRowFile : FileInput :=
  ⟨"data.csv", "a,b\n1,2\n,\n3,4", .error "", .error ""⟩

/-- C3 counterexample: on the spec's example text `"a,b\n1,2\n,,\n3,4"`
the blank line has three fields against the two headers, so Papa Parse
reports a `FieldMismatch` error and `parseFile` rejects — it does not
return two data rows. -/
theorem parseFile_csv_example_rejected_not_filtered :
    parseFile 0 csvExampleFile
      = .error "CSV parsing error: Too many fields: expected 2 fields but parsed 3" :=
  rfl

/-- C3 (amended): for every CSV file that `parseFile` accepts, every
returned data row has at least one field that is neither empty nor null
(all-blank rows are filtered out); and on the arity-correct blank-row
example `"a,b\n1,2\n,\n3,4"` exactly the two data rows
`{a:"1",b:"2"}` and `{a:"3",b:"4"}` are returned. -/
theorem parseFile_csv_filters_blank_rows (now : Nat) (f : FileInput)
    (hext : fileExtension f.name = "csv") (r : ParsedUpload)
    (hok : parseFile now f = .ok r) :
    (∀ row ∈ r.data, rowHasValue row = true) ∧
    (parseFile now csvBlankRowFile).map parseOutput
      = .ok ([.jobj [("a", .jstr "1"), ("b", .jstr "2")],
              .jobj [("a", .jstr "3"), ("b", .jstr "4")]], ["a", "b"]) := by
  constructor
  · intro row hrow
    unfold parseFile at hok
    rw [hext] at hok
    simp only [reduceIte] at hok
    rcases herr : (papaParse false f.text).errors with _ | ⟨e, es⟩
    · rw [herr] at hok
      simp only [Except.ok.injEq] at hok
      subst hok
      exact (List.mem_filter.mp hrow).2
    · rw [herr] at hok
      exact absurd hok (by simp)
  · rfl

/-- C3 witness: the theorem applied to the concrete blank-row example. -/
theorem parseFile_csv_filters_blank_rows_witness :
    rowHasValue (.jobj [("a", .jstr "1"), ("b", .jstr "2")]) = true :=
  (parseFile_csv_filters_blank_rows 5 csvBlankRowFile rfl
      ⟨[.jobj [("a", .jstr "1"), ("b", .jstr "2")],
        .jobj [("a", .jstr "3"), ("b", .jstr "4")]], ["a", "b"], 2,
        some [("a", "string"), ("b", "string")], "data.csv", 5⟩ rfl).1
    _ (List.Mem.head _)

/-- C4: once the format branch has produced rows and headers, an empty row
list makes `processFile` fail with `File contains no data`, and an empty
header list (with rows present — the row check runs first) makes it fail
with `Could not detect column headers`; a CSV file with a header row and
zero data rows fails with the no-data error instead of returning an empty
table. -/
theorem processFile_empty_result_errors (f : FileInput) (d : List JVal)
    (h : List String) (hb : processFileBranch f = .ok (d, h)) :
    (d = [] → processFileCore f = .error "File contains no data") ∧
    (d ≠ [] → h = [] → processFileCore f = .error "Could not detect column headers") ∧
    processFile ⟨"t.csv", "a,b", .error "", .error ""⟩
      = ⟨[], [], .error, some "File contains no data"⟩ := by
  refine ⟨?_, ?_, rfl⟩
  · intro hd
    subst hd
    unfold processFileCore
    rw [hb]
    rfl
  · intro hd hh
    subst hh
    unfold processFileCore
    rw [hb]
    cases d with
    | nil => exact absurd rfl hd
    | cons a t => rfl

/-- C4 witness: a header-only CSV file hits the no-data error. -/
theorem processFile_empty_result_errors_witness :
    processFileCore ⟨"t.csv", "a,b", .error "", .error ""⟩
      = .error "File contains no data" :=
  (processFile_empty_result_errors ⟨"t.csv", "a,b", .error "", .error ""⟩
    [] ["a", "b"] rfl).1 rfl

/-- C5: for a `.json` file whose parsed root is neither an array nor an
object (in the runtime's sense: `typeof` differs from `"object"`, i.e. a
bare number, string or boolean), `processFile` fails with the explicit
`JSON must be an array or object` error and returns no rows and no
headers. (A bare `null` root, whose `typeof` is `"object"`, instead takes
the object path and fails with the `Object.keys` TypeError — also an
error with no rows.) -/
theorem processFile_json_primitive_root_fails (f : FileInput) (v : JVal)
    (hext : fileExtension f.name = "json") (hjson : f.jsonOfText = .ok v)
    (hprim : jsTypeof v ≠ "object") :
    processFile f = ⟨[], [], .error, some "JSON must be an array or object"⟩ := by
  unfold processFile processFileCore processFileBranch
  rw [hext]
  simp only [reduceIte]
  rw [hjson]
  cases v with
  | jarr xs => exact absurd rfl hprim
  | jobj fs => exact absurd rfl hprim
  | jnull => exact absurd rfl hprim
  | jnum n => rfl
  | jstr s => rfl
  | jbool b => rfl

/-- C5 witness: the bare-number JSON document `5`. -/
theorem processFile_json_primitive_root_fails_witness :
    processFile ⟨"n.json", "5", .ok (.jnum 5), .error ""⟩
      = ⟨[], [], .error, some "JSON must be an array or object"⟩ :=
  processFile_json_primitive_root_fails ⟨"n.json", "5", .ok (.jnum 5), .error ""⟩
    (.jnum 5) rfl rfl (by decide)

/-- C6 counterexample: on a `.pdf` upload the failure message is
`Unsupported file type: pdf` — it names the offending extension and does
not mention any member of the accepted set {csv, xlsx, xls, json}. -/
theorem processFile_unsupported_message_lacks_accepted_set :
    (processFile ⟨"data.pdf", "x", .error "", .error ""⟩).errorMsg
      = some "Unsupported file type: pdf" ∧
    containsChars "Unsupported file type: pdf".toList "csv".toList = false ∧
    containsChars "Unsupported file type: pdf".toList "xlsx".toList = false ∧
    containsChars "Unsupported file type: pdf".toList "xls".toList = false ∧
    containsChars "Unsupported file type: pdf".toList "json".toList = false := by
  exact ⟨rfl, by decide, by decide, by decide, by decide⟩

/-- C6 (amended): for every file whose lowercase extension lies outside
{csv, xlsx, xls, json}, `processFile` fails immediately with
`Unsupported file type: <extension>` (naming the rejected extension, not
the accepted set), without reading the file contents: the result is
identical for any two contents. -/
theorem processFile_unsupported_ext_fails_immediately (nm t1 t2 : String)
    (j1 j2 : Except String JVal) (s1 s2 : Except String (List (List JVal)))
    (hcsv : fileExtension nm ≠ "csv") (hxlsx : fileExtension nm ≠ "xlsx")
    (hxls : fileExtension nm ≠ "xls") (hjson : fileExtension nm ≠ "json") :
    processFile ⟨nm, t1, j1, s1⟩ = processFile ⟨nm, t2, j2, s2⟩ ∧
    processFile ⟨nm, t1, j1, s1⟩
      = ⟨[], [], .error, some ("Unsupported file type: " ++ fileExtension nm)⟩ := by
  have hp : ∀ t j s, processFile ⟨nm, t, j, s⟩
      = ⟨[], [], .error, some ("Unsupported file type: " ++ fileExtension nm)⟩ := by
    intro t j s
    unfold processFile processFileCore processFileBranch
    rw [if_neg hcsv, if_neg (not_or.mpr ⟨hxlsx, hxls⟩), if_neg hjson]
  exact ⟨(hp t1 j1 s1).trans (hp t2 j2 s2).symm, hp t1 j1 s1⟩

/-- C6 witness: a `.pdf` file with two different contents. -/
theorem processFile_unsupported_ext_fails_immediately_witness :
    processFile ⟨"data.pdf", "x", .error "", .error ""⟩
      = processFile ⟨"data.pdf", "other", .ok .jnull, .ok []⟩ :=
  (processFile_unsupported_ext_fails_immediately "data.pdf" "x" "other"
    (.error "") (.ok .jnull) (.error "") (.ok [])
    (by decide) (by decide) (by decide) (by decide)).1

/-- C7 counterexample: the CSV file `" a ,b\n1,2"` parses successfully but
its returned headers are the first line's field names verbatim —
`[" a ", "b"]`, not the trimmed `["a", "b"]` the claim requires. -/
theorem processFile_csv_headers_untrimmed :
    (processFile ⟨"h.csv", " a ,b\n1,2", .error "", .error ""⟩).status = .success ∧
    (processFile ⟨"h.csv", " a ,b\n1,2", .error "", .error ""⟩).headers = [" a ", "b"] ∧
    (processFile ⟨"h.csv", " a ,b\n1,2", .error "", .error ""⟩).headers
      ≠ ((papaParse true " a ,b\n1,2").fields.map trimStr) := by
  exact ⟨rfl, rfl, by decide⟩

/-- C7 (amended): header derivation in `processFile` is format-dependent:
for XLSX/XLS the headers are the literal first row of cells stringified,
trimmed, with empty header cells discarded; for CSV the headers are the
first line's field names verbatim (no trimming, empty names kept). -/
theorem processFile_header_derivation (f : FileInput) (d : List JVal)
    (h : List String) :
    (fileExtension f.name = "csv" → processFileBranch f = .ok (d, h) →
      h = (papaParse true f.text).fields) ∧
    (∀ hdrRow rest, (fileExtension f.name = "xlsx" ∨ fileExtension f.name = "xls") →
      f.firstSheet = .ok (hdrRow :: rest) → processFileBranch f = .ok (d, h) →
      h = (hdrRow.map fun c => trimStr (jsStringOf c)).filter fun x => x ≠ "") := by
  constructor
  · intro hext hok
    unfold processFileBranch at hok
    rw [hext] at hok
    simp only [reduceIte] at hok
    rcases herr : (papaParse true f.text).errors with _ | ⟨e, es⟩ <;> rw [herr] at hok
    · simp only [Except.ok.injEq, Prod.mk.injEq] at hok
      exact hok.2.symm
    · exact absurd hok (by simp)
  · intro hdrRow rest hx hsheet hok
    unfold processFileBranch at hok
    rcases hx with hx | hx <;>
      rw [hx] at hok <;>
      simp only [String.reduceEq, true_or, false_or, or_true, or_false,
        if_true, if_false] at hok <;>
      rw [hsheet] at hok <;>
      simp only [Except.ok.injEq, Prod.mk.injEq] at hok <;> exact hok.2.symm

/-- C7 witness: both branches of the amended statement at concrete files. -/
theorem processFile_header_derivation_witness :
    (["a", "b"] : List String) = (papaParse true "a,b\n1,2").fields ∧
    (["x"] : List String)
      = (([JVal.jstr " x ", JVal.jstr ""]).map fun c => trimStr (jsStringOf c)).filter
          fun s => s ≠ "" :=
  ⟨(processFile_header_derivation ⟨"t.csv", "a,b\n1,2", .error "", .error ""⟩
      [.jobj [("a", .jnum 1), ("b", .jnum 2)]] ["a", "b"]).1 rfl rfl,
   (processFile_header_derivation
      ⟨"t.xlsx", "", .error "", .ok [[.jstr " x ", .jstr ""], [.jnum 1]]⟩
      [.jobj [("x", .jnum 1)]] ["x"]).2
      [.jstr " x ", .jstr ""] [[.jnum 1]] (Or.inl rfl) rfl rfl⟩

/-- C8: whenever `processFile` reports failure, the delivered value
carries an empty row list, an empty header list and an error message —
never a partially-filled table. -/
theorem processFile_failure_yields_empty_table (f : FileInput)
    (hfail : (processFile f).status = .error) :
    (processFile f).data = [] ∧ (processFile f).headers = [] ∧
    (processFile f).errorMsg ≠ none := by
  rcases hc : processFileCore f with e | dh
  · unfold processFile
    rw [hc]
    exact ⟨rfl, rfl, by simp⟩
  · unfold processFile at hfail
    rw [hc] at hfail
    exact absurd hfail (by simp)

/-- C8 witness: a failing upload (unsupported extension). -/
theorem processFile_failure_yields_empty_table_witness :
    (processFile ⟨"data.pdf", "x", .error "", .error ""⟩).data = [] ∧
    (processFile ⟨"data.pdf", "x", .error "", .error ""⟩).headers = [] ∧
    (processFile ⟨"data.pdf", "x", .error "", .error ""⟩).errorMsg ≠ none :=
  processFile_failure_yields_empty_table ⟨"data.pdf", "x", .error "", .error ""⟩ rfl

/-- C9: `parseFile` is deterministic in its rows and columns: the ambient
clock (the only ambient state the pipeline reads, injected as
`uploadedAt`) never influences the returned data rows or column list, so
parsing the same file twice yields row-for-row and header-for-header
identical output. -/
theorem parseFile_rows_headers_deterministic (t1 t2 : Nat) (f : FileInput) :
    (parseFile t1 f).map parseOutput = (parseFile t2 f).map parseOutput := by
  unfold parseFile
  simp only []
  repeat' (split <;> try rfl)

/-- C10: in the XLSX/XLS branch, `row[index] || ''` replaces every falsy
cell value — including the number 0 and the boolean `false`, not only
missing cells — by the empty string, so a data row all of whose cells are
falsy builds a row object of empty strings, is classified as blank and is
dropped
from the returned table; end to end, a sheet whose only rows are
`[0, false]` and `[1, 2]` under headers `a, b` yields the single data row
`{a: 1, b: 2}`. -/
theorem xlsx_falsy_cells_build_dropped_blank_row (hs : List String) (r : List JVal)
    (hfalsy : ∀ c ∈ r, jsTruthy c = false) :
    (∀ c ∈ r, cellOrEmpty (some c) = .jstr "") ∧
    (∀ p ∈ buildXlsxRow hs r, p.2 = .jstr "") ∧
    (∀ rows, r ∈ rows → buildXlsxRow hs r ∉ xlsxDataRows hs rows) ∧
    (processFile ⟨"t.xlsx", "", .error "",
        .ok [[.jstr "a", .jstr "b"], [.jnum 0, .jbool false], [.jnum 1, .jnum 2]]⟩).data
      = [.jobj [("a", .jnum 1), ("b", .jnum 2)]] := by
  have hcell : ∀ c ∈ r, cellOrEmpty (some c) = .jstr "" := by
    intro c hc
    simp [cellOrEmpty, hfalsy c hc]
  have hall : ∀ p ∈ buildXlsxRow hs r, p.2 = .jstr "" := by
    intro p hp
    unfold buildXlsxRow at hp
    rcases List.mem_map.mp hp with ⟨q, _, rfl⟩
    show cellOrEmpty (r.get? q.1) = .jstr ""
    rcases hg : r.get? q.1 with _ | v
    · rfl
    · exact hcell v (List.get?_mem hg)
  refine ⟨hcell, hall, ?_, rfl⟩
  intro rows _ hmem
  unfold xlsxDataRows at hmem
  have hany := (List.mem_filter.mp hmem).2
  rcases List.any_eq_true.mp hany with ⟨p, hp, hne⟩
  rw [hall p hp] at hne
  simp [isEmptyStrVal] at hne

/-- C10 witness: headers `a, b`, the all-falsy row `[0, false]` inside a
two-row sheet. -/
theorem xlsx_falsy_cells_build_dropped_blank_row_witness :
    buildXlsxRow ["a", "b"] [.jnum 0, .jbool false]
      ∉ xlsxDataRows ["a", "b"] [[.jnum 0, .jbool false], [.jnum 1, .jnum 2]] :=
  ((xlsx_falsy_cells_build_dropped_blank_row ["a", "b"] [.jnum 0, .jbool false]
      (by decide)).2.2.1)
    [[.jnum 0, .jbool false], [.jnum 1, .jnum 2]] (List.Mem.head _)
